import Mathlib

/-!
Shallow embedding of the SQL-Handlers repository (SQLHandlers.py,
ConnectionString.py, SQLDatabase.py).

Database side effects are modelled as observable traces: each mutating
method returns a `Trace` recording the exception raised (if any), the
messages printed, the number of connections opened, the rows for which a
statement was issued to the driver, the rows durably committed, the
failing rows reported in ignore mode, and the `executemany` batches
(passes) issued for bulk inserts.  The driver itself is abstracted by a
success predicate `ok : Row → Bool` saying whether executing the
statement on a given row succeeds.  pandas DataFrames are modelled as a
column list (name and object-dtype flag) together with a list of rows of
cells; a cell is NaN, Python None, a string, or a number, with NaN and
None both counting as null (`isna`), matching pandas.

Arguments that only shape the text of the generated SQL statement
(`table_name`, `identity_insert_on`) are abstracted away, since the
trace records which rows are issued, committed and batched rather than
the statement text.
-/

set_option autoImplicit false

namespace SQLHandlers

/-- A cell of a pandas DataFrame: missing value (NaN), Python None,
a string, or a number.  `pd.isna` is true on both `nan` and `pynone`. -/
inductive Cell where
  | nan : Cell
  | pynone : Cell
  | str : String → Cell
  | num : Int → Cell
deriving DecidableEq, Repr

/-- pandas `isna`: NaN and None are null. -/
def Cell.isna : Cell → Bool
  | .nan => true
  | .pynone => true
  | _ => false

/-- A row of data: one cell per column. -/
abbrev Row := List Cell

/-- A DataFrame column: its name and whether its dtype is `object` (text). -/
structure Col where
  name : String
  isText : Bool
deriving DecidableEq, Repr

/-- A pandas DataFrame: columns and rows. -/
structure DataFrame where
  cols : List Col
  rows : List Row
deriving DecidableEq, Repr

/-- The handler state set by `SQLPyodbcHandler.__init__`. -/
structure Handler where
  connection_string : String
  read_only : Bool
deriving DecidableEq, Repr

/-- Python exceptions the handler code can raise. -/
inductive PyErr where
  | valueError : String → PyErr
  | typeError : String → PyErr
  | keyError : String → PyErr
  | dbError : Row → PyErr
deriving DecidableEq, Repr

/-- Observable effects of one mutating method call. -/
structure Trace where
  raised : Option PyErr
  printed : List String
  connOpened : Nat
  issued : List Row
  committed : List Row
  reported : List Row
  passes : List (List Row)
deriving DecidableEq, Repr

/-- The trace of a call that did nothing at all. -/
def Trace.pure0 : Trace := ⟨none, [], 0, [], [], [], []⟩

/-- Sequencing of two calls: if the first raised, the second never runs. -/
def Trace.seq (a b : Trace) : Trace :=
  if a.raised.isSome then a
  else
    ⟨b.raised, a.printed ++ b.printed, a.connOpened + b.connOpened,
     a.issued ++ b.issued, a.committed ++ b.committed,
     a.reported ++ b.reported, a.passes ++ b.passes⟩

/-- The message printed by the read-only guard. -/
def readOnlyMsg : String := "Cannot perform operation. Access is read-only."

/-- The trace of a call suppressed by the read-only guard: it prints the
message and returns None, touching nothing else. -/
def suppressedTrace : Trace := ⟨none, [readOnlyMsg], 0, [], [], [], []⟩

/-- The `allow_method` decorator: when `read_only` is set, print the
message and return None instead of running the body. -/
def allow_method (h : Handler) (body : Trace) : Trace :=
  if h.read_only then suppressedTrace else body

/-- Model of `SQLPyodbcHandler.execute`: run one mutating statement inside
`with conn:` (commit on success, rollback and re-raise on failure). -/
def execute (h : Handler) (ok : Row → Bool) (sql_statement : String)
    (parameters : Row) : Trace :=
  allow_method h <|
    if ok parameters then
      ⟨none, [], 1, [parameters], [parameters], [], []⟩
    else
      ⟨some (.dbError parameters), [], 1, [parameters], [], [], []⟩

/-- The per-row loop of `iter_execute` in raise mode: execute each row in
order; stop at the first failing row.  Returns the rows for which the
statement was issued and the failing row, if any. -/
def execRaiseLoop (ok : Row → Bool) : List Row → List Row × Option Row
  | [] => ([], none)
  | r :: rs =>
    if ok r then
      let p := execRaiseLoop ok rs
      (r :: p.1, p.2)
    else ([r], some r)

/-- The check `'?' in parameterized_sql_statement`: whether the
statement contains a parameter marker. -/
def hasParamMarker (s : String) : Bool :=
  s.data.contains '?'

/-- Message of the ValueError raised on a non-parameterized statement. -/
def notParameterizedMsg : String := "Sql statement must be parameterized."

/-- Message of the TypeError raised on a bad error_handling argument. -/
def badModeMsg : String :=
  "Invalid argument for error_handling. Argument must be raise or ignore."

/-- Model of `SQLPyodbcHandler.iter_execute`: validate that the statement contains
a parameter marker, open a connection, then run the statement once per
row.  In raise mode the whole batch runs inside `with conn:`, so the
first failure rolls everything back; in ignore mode each successful row
is committed at once and failing rows are reported; any other mode
raises TypeError after the connection is opened. -/
def iter_execute (h : Handler) (ok : Row → Bool)
    (parameterized_sql_statement : String) (values : List Row)
    (error_handling : String) : Trace :=
  allow_method h <|
    if !(hasParamMarker parameterized_sql_statement) then
      ⟨some (.valueError notParameterizedMsg), [], 0, [], [], [], []⟩
    else if error_handling = "raise" then
      let p := execRaiseLoop ok values
      match p.2 with
      | none => ⟨none, [], 1, p.1, values, [], []⟩
      | some r => ⟨some (.dbError r), [], 1, p.1, [], [], []⟩
    else if error_handling = "ignore" then
      ⟨none, [], 1, values, values.filter (fun r => ok r),
       values.filter (fun r => !(ok r)), []⟩
    else
      ⟨some (.typeError badModeMsg), [], 1, [], [], [], []⟩

/-- pandas `df.dropna()`: keep the rows with no null cell. -/
def dropna (df : DataFrame) : DataFrame :=
  ⟨df.cols, df.rows.filter (fun r => !(r.any Cell.isna))⟩

/-- The per-column `fillna('')` loop of `bulk_insert` with
`handle_nulls = '*'`: in every object-dtype (text) column, nulls become
the empty string. -/
def fillTextNa (cols : List Col) (r : Row) : Row :=
  List.zipWith (fun c x => if c.isText && x.isna then Cell.str "" else x) cols r

/-- Model of `df.astype(object).where(pd.notnull(df), None)`: remaining nulls
become Python None. -/
def naToNone (r : Row) : Row :=
  r.map (fun x => if x.isna then Cell.pynone else x)

/-- The whole DataFrame transformation of the `handle_nulls = '*'`
branch of `bulk_insert`. -/
def starTransform (df : DataFrame) : DataFrame :=
  ⟨df.cols, df.rows.map (fun r => naToNone (fillTextNa df.cols r))⟩

/-- Index of a named column, as `df[name]` resolves it. -/
def DataFrame.colIdx (df : DataFrame) (name : String) : Option Nat :=
  df.cols.findIdx? (fun c => c.name == name)

/-- Whether the cell of row `r` in column `i` is null (a missing cell of
a ragged row reads as NaN). -/
def cellNa (i : Nat) (r : Row) : Bool :=
  (r.getD i Cell.nan).isna

/-- Model of `SQLPyodbcHandler._separate_nulls`: split the rows on whether the
named column (here by index) is null; in the null part the column is set
to Python None (`astype(str)` then assigning `None`). -/
def separate_nulls (df : DataFrame) (i : Nat) : DataFrame × DataFrame :=
  (⟨df.cols, df.rows.filter (fun r => !(cellNa i r))⟩,
   ⟨df.cols, (df.rows.filter (fun r => cellNa i r)).map
      (fun r => r.set i Cell.pynone)⟩)

/-- Model of `SQLPyodbcHandler._insert_values`: guarded by `allow_method`; when
the row list is non-empty, open a connection and issue one
`executemany` pass over all rows, committing them; when it is empty, do
nothing at all. -/
def insert_values (h : Handler) (df : DataFrame) : Trace :=
  allow_method h <|
    if df.rows.length > 0 then
      ⟨none, [], 1, [], df.rows, [], [df.rows]⟩
    else Trace.pure0

/-- Model of `SQLPyodbcHandler.bulk_insert`: optionally drop null rows, then
dispatch on `handle_nulls`: `'*'` issues one pass over the transformed
frame; a column name splits the frame on that column's nulls and issues
one pass per part (a missing column raises KeyError, as `df[col]`
would); `None` issues one pass over the frame as is. -/
def bulk_insert (h : Handler) (df : DataFrame)
    (remove_nulls : Bool) (handle_nulls : Option String) : Trace :=
  allow_method h <|
    let df1 := if remove_nulls then dropna df else df
    match handle_nulls with
    | some hn =>
      if hn = "*" then
        insert_values h (starTransform df1)
      else
        match df1.colIdx hn with
        | some i =>
          let p := separate_nulls df1 i
          Trace.seq (insert_values h p.1) (insert_values h p.2)
        | none => ⟨some (.keyError hn), [], 0, [], [], [], []⟩
    | none => insert_values h df1

/-- The value `query` returns: a DataFrame when `pandas_dataframe` is
true, the cursor's `fetchall` list of tuples otherwise. -/
inductive QueryResult where
  | frame : DataFrame → QueryResult
  | tuples : List Row → QueryResult
deriving DecidableEq, Repr

/-- Observable outcome of a `query` call: the value returned (None for
the stubbed subclass override), the statements actually run against the
database, and the handler state after the call. -/
structure QueryTrace where
  result : Option QueryResult
  queriesRun : List String
  handlerAfter : Handler
deriving DecidableEq, Repr

/-- Model of `SQLPyodbcHandler.query`: not guarded by `allow_method`; opens a
connection, runs the statement through the driver (abstracted as a
function from statement and parameters to the resulting frame), and
returns a DataFrame or a list of tuples.  No handler field is ever
assigned. -/
def query (h : Handler) (driver : String → Option Row → DataFrame)
    (sql_query_statement : String) (parameters : Option Row)
    (pandas_dataframe : Bool) : QueryTrace :=
  let res := driver sql_query_statement parameters
  ⟨some (if pandas_dataframe then .frame res else .tuples res.rows),
   [sql_query_statement], h⟩

/-- Model of `SQLAlchemyHandler.query`, overridden as `def query(self): pass`:
returns None and runs nothing. -/
def alchemyQuery (h : Handler) : QueryTrace := ⟨none, [], h⟩

/-- Model of `SQLAlchemyHandler.execute`, overridden as `def execute(self): pass`. -/
def alchemyExecute (_h : Handler) : Trace := Trace.pure0

/-- Model of `SQLAlchemyHandler.iter_execute`, overridden as a pass stub. -/
def alchemyIterExecute (_h : Handler) : Trace := Trace.pure0

/-- Model of `SQLAlchemyHandler._insert_values`: unguarded; delegates to
`df.to_sql(..., if_exists='append')`, one engine write of all rows,
issued even when the frame is empty. -/
def alchemyInsertValues (_h : Handler) (df : DataFrame) : Trace :=
  ⟨none, [], 1, [], df.rows, [], [df.rows]⟩

/-- Model of `SQLAlchemyHandler.bulk_insert`: `super().bulk_insert(...)`, i.e.
the base branching, with `self._insert_values` resolving to the to_sql
version and `self._separate_nulls` delegating back to the base. -/
def alchemyBulkInsert (h : Handler) (df : DataFrame)
    (remove_nulls : Bool) (handle_nulls : Option String) : Trace :=
  allow_method h <|
    let df1 := if remove_nulls then dropna df else df
    match handle_nulls with
    | some hn =>
      if hn = "*" then
        alchemyInsertValues h (starTransform df1)
      else
        match df1.colIdx hn with
        | some i =>
          let p := separate_nulls df1 i
          Trace.seq (alchemyInsertValues h p.1) (alchemyInsertValues h p.2)
        | none => ⟨some (.keyError hn), [], 0, [], [], [], []⟩
    | none => alchemyInsertValues h df1

end SQLHandlers

namespace ConnectionStringStore

open SQLHandlers

/-- The `ConnectionString` store: the four instance attributes set in
`__init__`, one driver connection string per environment name. -/
structure ConnectionString where
  prod : String
  dev : String
  qa : String
  localDb : String
deriving DecidableEq, Repr

/-- The concrete store built by `ConnectionString.__init__`. -/
def connectionStrings : ConnectionString :=
  ⟨"Driver=\x7bODBC Driver 17 for SQL Server\x7d; Server=XXXXXXX; Database=ProdDatabaseName; Trusted_Connection=yes;",
   "Driver=\x7bODBC Driver 17 for SQL Server\x7d; Server=XXXXXXX; Database=DevDatabasename; Trusted_Connection=yes;",
   "Driver=\x7bODBC Driver 17 for SQL Server\x7d; Server=XXXXXXX; Database=QADatabaseName; Trusted_Connection=yes;",
   "Driver=\x7bODBC Driver 17 for SQL Server\x7d; Server=(localDB)\\MSSQLLocalDB; Database=MyLocalDb;"⟩

/-- Model of `ConnectionString.create_string`: look up the attribute named by the
environment; the instance holds exactly the four environment strings,
any other name has no stored connection string. -/
def create_string (cs : ConnectionString) : String → Option String
  | "prod" => some cs.prod
  | "dev" => some cs.dev
  | "qa" => some cs.qa
  | "local" => some cs.localDb
  | _ => none

end ConnectionStringStore

namespace SQLDatabase

open SQLHandlers ConnectionStringStore

/-- Model of `SQLDatabase.prod`: classmethod constructor; `read_only` passed as
`none` takes the Python default, which for prod is `True`. -/
def prod (read_only : Option Bool) : Handler :=
  ⟨connectionStrings.prod, read_only.getD true⟩

/-- Model of `SQLDatabase.qa`: default `read_only=False`. -/
def qa (read_only : Option Bool) : Handler :=
  ⟨connectionStrings.qa, read_only.getD false⟩

/-- Model of `SQLDatabase.dev`: default `read_only=False`. -/
def dev (read_only : Option Bool) : Handler :=
  ⟨connectionStrings.dev, read_only.getD false⟩

/-- Model of `SQLDatabase.local`: default `read_only=False`. -/
def localDb (read_only : Option Bool) : Handler :=
  ⟨connectionStrings.localDb, read_only.getD false⟩

end SQLDatabase

namespace SQLHandlers

open ConnectionStringStore

/-- C1: on a handle constructed read-only, each mutating operation
(`execute`, `iter_execute`, `bulk_insert`) is suppressed rather than
failing: it prints the read-only message and returns None, issues no
SQL statement, opens no connection, and raises no exception. -/
theorem readonly_suppresses_mutations (h : Handler) (hro : h.read_only = true)
    (ok : Row → Bool) (stmt : String) (ps : Row) (values : List Row)
    (eh : String) (df : DataFrame) (rn : Bool) (hn : Option String) :
    execute h ok stmt ps = suppressedTrace ∧
    iter_execute h ok stmt values eh = suppressedTrace ∧
    bulk_insert h df rn hn = suppressedTrace ∧
    suppressedTrace = ⟨none, [readOnlyMsg], 0, [], [], [], []⟩ := by
  unfold execute iter_execute bulk_insert allow_method
  simp [hro, suppressedTrace]

/-- C1 witness: a concrete read-only handle suppresses all three calls. -/
theorem readonly_suppresses_mutations_witness :
    execute ⟨"cs", true⟩ (fun _ => true) "DELETE FROM T" [] = suppressedTrace ∧
    iter_execute ⟨"cs", true⟩ (fun _ => true) "DELETE FROM T WHERE X=?"
      [[Cell.num 1]] "raise" = suppressedTrace ∧
    bulk_insert ⟨"cs", true⟩ ⟨[⟨"a", true⟩], [[Cell.nan]]⟩ false none = suppressedTrace ∧
    suppressedTrace = ⟨none, [readOnlyMsg], 0, [], [], [], []⟩ :=
  readonly_suppresses_mutations ⟨"cs", true⟩ rfl (fun _ => true) "DELETE FROM T"
    [] [[Cell.num 1]] "raise" ⟨[⟨"a", true⟩], [[Cell.nan]]⟩ false none

/-- C5: `query` is not gated on `read_only`; for any handle it runs the
given statement against the driver, returns a DataFrame when
`pandas_dataframe` is true and a list of tuples otherwise, and leaves
the handler state (connection_string and read_only) unchanged. -/
theorem query_runs_and_preserves_state (h : Handler)
    (driver : String → Option Row → DataFrame) (stmt : String)
    (ps : Option Row) :
    (query h driver stmt ps true).result = some (.frame (driver stmt ps)) ∧
    (query h driver stmt ps false).result = some (.tuples (driver stmt ps).rows) ∧
    (∀ pdf : Bool, (query h driver stmt ps pdf).queriesRun = [stmt] ∧
      (query h driver stmt ps pdf).handlerAfter = h ∧
      (query h driver stmt ps pdf).handlerAfter.connection_string = h.connection_string ∧
      (query h driver stmt ps pdf).handlerAfter.read_only = h.read_only) :=
  ⟨rfl, rfl, fun _ => ⟨rfl, rfl, rfl, rfl⟩⟩

/-- C7: the connection-string store holds strings for exactly the four
environment names local, dev, qa and prod, and each named constructor
of the SQL-Server facade builds its handler on the store's string for
that environment. -/
theorem connection_store_and_constructors :
    (∀ e : String, (create_string connectionStrings e).isSome = true ↔
      (e = "local" ∨ e = "dev" ∨ e = "qa" ∨ e = "prod")) ∧
    (∀ ro, create_string connectionStrings "prod" =
      some (SQLDatabase.prod ro).connection_string) ∧
    (∀ ro, create_string connectionStrings "qa" =
      some (SQLDatabase.qa ro).connection_string) ∧
    (∀ ro, create_string connectionStrings "dev" =
      some (SQLDatabase.dev ro).connection_string) ∧
    (∀ ro, create_string connectionStrings "local" =
      some (SQLDatabase.localDb ro).connection_string) := by
  refine ⟨fun e => ?_, fun _ => rfl, fun _ => rfl, fun _ => rfl, fun _ => rfl⟩
  constructor
  · intro hs
    unfold create_string at hs
    split at hs <;> simp_all
  · rintro (rfl | rfl | rfl | rfl) <;> rfl

/-- C7 witness: the iff and the prod constructor at concrete inputs. -/
theorem connection_store_and_constructors_witness :
    ((create_string connectionStrings "qa").isSome = true ↔
      ("qa" = "local" ∨ "qa" = "dev" ∨ "qa" = "qa" ∨ "qa" = "prod")) ∧
    create_string connectionStrings "prod" =
      some (SQLDatabase.prod (some false)).connection_string :=
  ⟨connection_store_and_constructors.1 "qa",
   connection_store_and_constructors.2.1 (some false)⟩

/-- C8: the prod named constructor defaults `read_only` to True, while
qa, dev and local default it to False (the default is taken when the
argument is not passed, modelled as `none`). -/
theorem default_read_only_per_env :
    (SQLDatabase.prod none).read_only = true ∧
    (SQLDatabase.qa none).read_only = false ∧
    (SQLDatabase.dev none).read_only = false ∧
    (SQLDatabase.localDb none).read_only = false :=
  ⟨rfl, rfl, rfl, rfl⟩

/-- C9: on a writable handle, `iter_execute` raises ValueError on a
statement without a parameter marker (before opening a connection) and
TypeError on an unknown error_handling mode (after opening one), in
both cases issuing no statement; on a read-only handle the guard runs
first and the same calls return None without raising. -/
theorem iter_execute_validation (h : Handler) (ok : Row → Bool)
    (stmt : String) (values : List Row) (eh : String) :
    (h.read_only = false → hasParamMarker stmt = false →
      iter_execute h ok stmt values eh =
        ⟨some (.valueError notParameterizedMsg), [], 0, [], [], [], []⟩) ∧
    (h.read_only = false → hasParamMarker stmt = true →
      eh ≠ "raise" → eh ≠ "ignore" →
      iter_execute h ok stmt values eh =
        ⟨some (.typeError badModeMsg), [], 1, [], [], [], []⟩) ∧
    (h.read_only = true →
      iter_execute h ok stmt values eh = suppressedTrace) := by
  unfold iter_execute allow_method
  refine ⟨?_, ?_, ?_⟩ <;> intros <;> simp_all

/-- C9 witness: the three cases at concrete inputs. -/
theorem iter_execute_validation_witness :
    iter_execute ⟨"cs", false⟩ (fun _ => true) "DELETE FROM T"
      [[Cell.num 1]] "raise" =
      ⟨some (.valueError notParameterizedMsg), [], 0, [], [], [], []⟩ ∧
    iter_execute ⟨"cs", false⟩ (fun _ => true) "UPDATE T SET X=?"
      [[Cell.num 1]] "oops" =
      ⟨some (.typeError badModeMsg), [], 1, [], [], [], []⟩ ∧
    iter_execute ⟨"cs", true⟩ (fun _ => true) "UPDATE T SET X=?"
      [[Cell.num 1]] "oops" = suppressedTrace :=
  ⟨(iter_execute_validation ⟨"cs", false⟩ (fun _ => true) "DELETE FROM T"
      [[Cell.num 1]] "raise").1 rfl (by decide),
   (iter_execute_validation ⟨"cs", false⟩ (fun _ => true) "UPDATE T SET X=?"
      [[Cell.num 1]] "oops").2.1 rfl (by decide) (by decide) (by decide),
   (iter_execute_validation ⟨"cs", true⟩ (fun _ => true) "UPDATE T SET X=?"
      [[Cell.num 1]] "oops").2.2 rfl⟩

/-- C10: on an empty row set the insert helper opens no connection and
issues no pass, and `bulk_insert` on an empty frame does the same under
every null policy. -/
theorem insert_values_empty_no_effect (h : Handler) (cols : List Col)
    (rn : Bool) (hn : Option String) :
    insert_values h ⟨cols, []⟩ =
      (if h.read_only then suppressedTrace else Trace.pure0) ∧
    (insert_values h ⟨cols, []⟩).connOpened = 0 ∧
    (insert_values h ⟨cols, []⟩).passes = [] ∧
    (insert_values h ⟨cols, []⟩).committed = [] ∧
    (bulk_insert h ⟨cols, []⟩ rn hn).connOpened = 0 ∧
    (bulk_insert h ⟨cols, []⟩ rn hn).passes = [] ∧
    (bulk_insert h ⟨cols, []⟩ rn hn).committed = [] := by
  unfold bulk_insert insert_values allow_method dropna starTransform separate_nulls
  by_cases hro : h.read_only <;>
    rcases hn with _ | hn <;>
    simp_all [suppressedTrace, Trace.pure0, Trace.seq] <;>
    rcases hh : DataFrame.colIdx ⟨cols, []⟩ hn with _ | i <;>
    split <;> simp_all [Trace.seq, Trace.pure0]

end SQLHandlers

namespace SQLHandlers

/-- Raise-mode loop: the statement is issued for the longest prefix of
succeeding rows, then once for the first failing row, which is the
failure returned. -/
theorem execRaiseLoop_eq (ok : Row → Bool) (l : List Row) :
    execRaiseLoop ok l =
      (l.takeWhile ok ++ (l.dropWhile ok).take 1, (l.dropWhile ok).head?) := by
  induction l with
  | nil => rfl
  | cons r rs ih =>
    cases hr : ok r <;>
      simp [execRaiseLoop, hr, List.takeWhile_cons, List.dropWhile_cons, ih]

/-- C2: `iter_execute` runs the statement once per row.  In ignore mode
every row is attempted, the successful rows are exactly the committed
ones, the failing rows are reported, and no exception escapes.  In raise
mode, if every row succeeds the whole batch is committed; if some row
fails, the statement is issued only up to and including the first
failing row, the exception propagates, and nothing from the batch is
committed (the `with conn:` rollback). -/
theorem iter_execute_raise_ignore (h : Handler) (hro : h.read_only = false)
    (ok : Row → Bool) (stmt : String) (hq : hasParamMarker stmt = true)
    (values : List Row) :
    ((iter_execute h ok stmt values "ignore").issued = values ∧
     (iter_execute h ok stmt values "ignore").committed =
       values.filter (fun r => ok r) ∧
     (iter_execute h ok stmt values "ignore").reported =
       values.filter (fun r => !(ok r)) ∧
     (iter_execute h ok stmt values "ignore").raised = none) ∧
    ((∀ r ∈ values, ok r = true) →
      iter_execute h ok stmt values "raise" =
        ⟨none, [], 1, values, values, [], []⟩) ∧
    (∀ r₀, (values.dropWhile ok).head? = some r₀ →
      iter_execute h ok stmt values "raise" =
        ⟨some (.dbError r₀), [], 1, values.takeWhile ok ++ [r₀], [], [], []⟩) := by
  refine ⟨?_, ?_, ?_⟩
  · simp [iter_execute, allow_method, hro, hq]
  · intro hall
    have hdw : values.dropWhile ok = [] := List.dropWhile_eq_nil_iff.mpr hall
    have htw : values.takeWhile ok = values := List.takeWhile_eq_self_iff.mpr hall
    simp [iter_execute, allow_method, hro, hq, execRaiseLoop_eq, hdw, htw]
  · intro r₀ hr₀
    have hdw : (values.dropWhile ok).take 1 = [r₀] := by
      cases hv : values.dropWhile ok with
      | nil => simp [hv] at hr₀
      | cons a as => simp [hv] at hr₀ ⊢; exact hr₀
    simp [iter_execute, allow_method, hro, hq, execRaiseLoop_eq, hdw, hr₀]

/-- C2 witness: a three-row batch whose middle row fails; ignore mode
commits the other two and reports the failure, raise mode stops at the
failing row and commits nothing. -/
theorem iter_execute_raise_ignore_witness :
    (iter_execute ⟨"cs", false⟩ (fun r => !(r == [Cell.num 0]))
        "UPDATE T SET X=?" [[Cell.num 1], [Cell.num 0], [Cell.num 2]]
        "ignore").committed = [[Cell.num 1], [Cell.num 2]] ∧
    iter_execute ⟨"cs", false⟩ (fun r => !(r == [Cell.num 0]))
        "UPDATE T SET X=?" [[Cell.num 1], [Cell.num 0], [Cell.num 2]]
        "raise" =
      ⟨some (.dbError [Cell.num 0]), [], 1, [[Cell.num 1], [Cell.num 0]],
       [], [], []⟩ := by
  have hth := iter_execute_raise_ignore ⟨"cs", false⟩ rfl
    (fun r => !(r == [Cell.num 0])) "UPDATE T SET X=?" (by decide)
    [[Cell.num 1], [Cell.num 0], [Cell.num 2]]
  refine ⟨(hth.1.2.1).trans (by decide), ?_⟩
  have hcase := hth.2.2 [Cell.num 0] (by decide)
  exact hcase.trans (by decide)

end SQLHandlers

namespace SQLHandlers

/-- Setting a cell within bounds is what `getD` then reads back. -/
theorem getD_set_self (r : Row) (i : Nat) (v : Cell) (hi : i < r.length) :
    (r.set i v).getD i Cell.nan = v := by
  induction r generalizing i with
  | nil => simp at hi
  | cons a as ih =>
    cases i with
    | zero => rfl
    | succ n =>
      have hn : n < as.length := by simpa using hi
      simpa [List.getD] using ih n hn

/-- C3: with a column name as the null policy, `bulk_insert` splits the
rows into those with a non-null cell in that column and those with a
null one (the latter with the column set to None), the two parts
together are exactly the input rows up to that substitution, and the
insert is issued in at most two passes, one per non-empty part. -/
theorem bulk_insert_named_column_split (h : Handler)
    (hro : h.read_only = false) (df : DataFrame) (cname : String)
    (hns : cname ≠ "*") (i : Nat) (hi : df.colIdx cname = some i)
    (hwf : ∀ r ∈ df.rows, i < r.length) :
    ((separate_nulls df i).1.rows =
      df.rows.filter (fun r => !(cellNa i r))) ∧
    (∀ r ∈ (separate_nulls df i).1.rows, cellNa i r = false) ∧
    (∀ r ∈ (separate_nulls df i).2.rows, r.getD i Cell.nan = Cell.pynone) ∧
    List.Perm ((separate_nulls df i).1.rows ++ (separate_nulls df i).2.rows)
      (df.rows.map (fun r => if cellNa i r then r.set i Cell.pynone else r)) ∧
    ((bulk_insert h df false (some cname)).passes =
      (if (separate_nulls df i).1.rows = [] then []
        else [(separate_nulls df i).1.rows]) ++
      (if (separate_nulls df i).2.rows = [] then []
        else [(separate_nulls df i).2.rows])) ∧
    (bulk_insert h df false (some cname)).passes.length ≤ 2 := by
  have hpasses : (bulk_insert h df false (some cname)).passes =
      (if (separate_nulls df i).1.rows = [] then []
        else [(separate_nulls df i).1.rows]) ++
      (if (separate_nulls df i).2.rows = [] then []
        else [(separate_nulls df i).2.rows]) := by
    unfold bulk_insert allow_method insert_values
    simp only [hro, if_false, Bool.false_eq_true]
    rw [if_neg (by simp [hns])]
    rw [hi]
    by_cases h1 : (separate_nulls df i).1.rows = [] <;>
      by_cases h2 : (separate_nulls df i).2.rows = [] <;>
        simp [Trace.seq, Trace.pure0, allow_method, hro, h1, h2,
          List.length_pos]
  refine ⟨rfl, ?_, ?_, ?_, hpasses, ?_⟩
  · intro r hr
    have := (List.mem_filter.mp hr).2
    simpa using this
  · intro r hr
    simp only [separate_nulls] at hr
    obtain ⟨r', hr', rfl⟩ := List.mem_map.mp hr
    exact getD_set_self r' i Cell.pynone
      (hwf r' (List.mem_filter.mp hr').1)
  · have hbase := List.filter_append_perm (fun r => !(cellNa i r)) df.rows
    have hmap := hbase.map
      (fun r => if cellNa i r then r.set i Cell.pynone else r)
    rw [List.map_append] at hmap
    have h1 : (df.rows.filter (fun r => !(cellNa i r))).map
        (fun r => if cellNa i r then r.set i Cell.pynone else r) =
        df.rows.filter (fun r => !(cellNa i r)) := by
      rw [List.map_congr_left (g := id) ?_, List.map_id]
      intro r hr
      have := (List.mem_filter.mp hr).2
      simp only [Bool.not_eq_true'] at this
      simp [this]
    have h2 : (df.rows.filter (fun r => !(!(cellNa i r)))).map
        (fun r => if cellNa i r then r.set i Cell.pynone else r) =
        (df.rows.filter (fun r => cellNa i r)).map
          (fun r => r.set i Cell.pynone) := by
      rw [List.filter_congr (q := fun r => cellNa i r) ?_]
      · apply List.map_congr_left
        intro r hr
        have := (List.mem_filter.mp hr).2
        simp [this]
      · intro r _
        simp
    rw [h1, h2] at hmap
    exact hmap
  · rw [hpasses]
    by_cases h1 : (separate_nulls df i).1.rows = [] <;>
      by_cases h2 : (separate_nulls df i).2.rows = [] <;>
        simp [h1, h2]

end SQLHandlers

namespace SQLHandlers

/-- C3 witness: a two-row frame split on column "a"; the non-null row
and the null row are inserted in two separate passes. -/
theorem bulk_insert_named_column_split_witness :
    (bulk_insert ⟨"cs", false⟩
        ⟨[⟨"a", true⟩, ⟨"b", false⟩],
         [[Cell.str "x", Cell.num 1], [Cell.nan, Cell.num 2]]⟩
        false (some "a")).passes =
      [[[Cell.str "x", Cell.num 1]], [[Cell.pynone, Cell.num 2]]] ∧
    (bulk_insert ⟨"cs", false⟩
        ⟨[⟨"a", true⟩, ⟨"b", false⟩],
         [[Cell.str "x", Cell.num 1], [Cell.nan, Cell.num 2]]⟩
        false (some "a")).passes.length ≤ 2 := by
  have hth := bulk_insert_named_column_split ⟨"cs", false⟩ rfl
      ⟨[⟨"a", true⟩, ⟨"b", false⟩],
       [[Cell.str "x", Cell.num 1], [Cell.nan, Cell.num 2]]⟩
      "a" (by decide) 0 (by decide) (by decide)
  exact ⟨hth.2.2.2.2.1.trans (by decide), hth.2.2.2.2.2⟩

/-- Pointwise behaviour of the `handle_nulls = '*'` transformation:
nulls in text columns become the empty string, remaining nulls become
None, and non-null cells are untouched. -/
theorem star_getD (cols : List Col) (r : Row) (i : Nat)
    (hc : i < cols.length) (hr : i < r.length) :
    (naToNone (fillTextNa cols r)).getD i Cell.nan =
      (if (cols.getD i ⟨"", false⟩).isText && (r.getD i Cell.nan).isna
        then Cell.str ""
        else if (r.getD i Cell.nan).isna then Cell.pynone
        else r.getD i Cell.nan) := by
  induction cols generalizing r i with
  | nil => simp at hc
  | cons c cs ih =>
    cases r with
    | nil => simp at hr
    | cons x xs =>
      cases i with
      | zero =>
        simp only [naToNone, fillTextNa, List.zipWith_cons_cons,
          List.map_cons, List.getD_cons_zero]
        cases hb : c.isText && x.isna
        · simp [hb]
        · simp [hb, Cell.isna]
      | succ n =>
        have hc' : n < cs.length := by simpa using hc
        have hr' : n < xs.length := by simpa using hr
        simpa [naToNone, fillTextNa] using ih xs n hc' hr'

/-- C4: with `handle_nulls = '*'`, `bulk_insert` issues at most one
pass, that pass covers all rows, and each cell is transformed by the
fill-text-nulls-then-None rule; with `remove_nulls = True`, exactly the
rows with no null cell are inserted. -/
theorem bulk_insert_star_and_dropna (h : Handler)
    (hro : h.read_only = false) (df : DataFrame) :
    ((bulk_insert h df false (some "*")).passes.length ≤ 1 ∧
     (bulk_insert h df false (some "*")).passes.join =
       df.rows.map (fun r => naToNone (fillTextNa df.cols r))) ∧
    (∀ (cols : List Col) (r : Row) (i : Nat), i < cols.length → i < r.length →
      (((cols.getD i ⟨"", false⟩).isText = true ∧
          (r.getD i Cell.nan).isna = true) →
        (naToNone (fillTextNa cols r)).getD i Cell.nan = Cell.str "") ∧
      (((cols.getD i ⟨"", false⟩).isText = false ∧
          (r.getD i Cell.nan).isna = true) →
        (naToNone (fillTextNa cols r)).getD i Cell.nan = Cell.pynone) ∧
      ((r.getD i Cell.nan).isna = false →
        (naToNone (fillTextNa cols r)).getD i Cell.nan = r.getD i Cell.nan)) ∧
    ((bulk_insert h df true none).passes.join =
       df.rows.filter (fun r => !(r.any Cell.isna)) ∧
     ∀ r ∈ (bulk_insert h df true none).passes.join,
       r.any Cell.isna = false) := by
  have hjoin : (bulk_insert h df true none).passes.join =
      df.rows.filter (fun r => !(r.any Cell.isna)) := by
    unfold bulk_insert insert_values dropna
    by_cases hdf : df.rows.filter (fun r => !(r.any Cell.isna)) = [] <;>
      simp [allow_method, hro, Trace.pure0, hdf, List.length_pos]
  refine ⟨⟨?_, ?_⟩, ?_, hjoin, ?_⟩
  · unfold bulk_insert insert_values starTransform
    by_cases hdf : df.rows = [] <;>
      simp [allow_method, hro, hdf, Trace.pure0, List.length_pos]
  · unfold bulk_insert insert_values starTransform
    by_cases hdf : df.rows = [] <;>
      simp [allow_method, hro, hdf, Trace.pure0, List.length_pos]
  · intro cols r i hc hr
    refine ⟨?_, ?_, ?_⟩
    · rintro ⟨h1, h2⟩
      rw [star_getD cols r i hc hr]
      simp only [List.getD, List.get?_eq_getElem?] at h1 h2 ⊢
      simp [h1, h2]
    · rintro ⟨h1, h2⟩
      rw [star_getD cols r i hc hr]
      simp only [List.getD, List.get?_eq_getElem?] at h1 h2 ⊢
      simp [h1, h2]
    · intro h1
      rw [star_getD cols r i hc hr]
      simp only [List.getD, List.get?_eq_getElem?] at h1 ⊢
      simp [h1]
  · intro r hr
    rw [hjoin] at hr
    have := (List.mem_filter.mp hr).2
    simpa using this

/-- C4 witness: a frame with a text column and a numeric column; the
star policy inserts all rows in one pass with the text null made "" and
the numeric null made None, and the drop policy inserts only the
null-free row. -/
theorem bulk_insert_star_and_dropna_witness :
    (bulk_insert ⟨"cs", false⟩
        ⟨[⟨"a", true⟩, ⟨"b", false⟩],
         [[Cell.str "x", Cell.num 1], [Cell.nan, Cell.nan]]⟩
        false (some "*")).passes.join =
      [[Cell.str "x", Cell.num 1], [Cell.str "", Cell.pynone]] ∧
    (bulk_insert ⟨"cs", false⟩
        ⟨[⟨"a", true⟩, ⟨"b", false⟩],
         [[Cell.str "x", Cell.num 1], [Cell.nan, Cell.nan]]⟩
        true none).passes.join = [[Cell.str "x", Cell.num 1]] := by
  have hth := bulk_insert_star_and_dropna ⟨"cs", false⟩ rfl
      ⟨[⟨"a", true⟩, ⟨"b", false⟩],
       [[Cell.str "x", Cell.num 1], [Cell.nan, Cell.nan]]⟩
  exact ⟨hth.1.2.trans (by decide), hth.2.2.1.trans (by decide)⟩

end SQLHandlers

namespace SQLHandlers

/-- C6 counterexample: the alternate handler's `query` override is a
stub; on the same writable handle the base handler's `query` runs the
statement and returns rows while the alternate handler runs nothing and
returns None, so the two do not provide the same contract. -/
theorem alchemy_not_same_contract :
    (alchemyQuery ⟨"cs", false⟩).queriesRun = [] ∧
    (query ⟨"cs", false⟩ (fun _ _ => ⟨[⟨"n", false⟩], [[Cell.num 1]]⟩)
      "SELECT 1" none true).queriesRun = ["SELECT 1"] ∧
    (alchemyQuery ⟨"cs", false⟩).result = none ∧
    (query ⟨"cs", false⟩ (fun _ _ => ⟨[⟨"n", false⟩], [[Cell.num 1]]⟩)
      "SELECT 1" none true).result ≠ none ∧
    alchemyQuery ⟨"cs", false⟩ ≠
      query ⟨"cs", false⟩ (fun _ _ => ⟨[⟨"n", false⟩], [[Cell.num 1]]⟩)
        "SELECT 1" none true := by
  refine ⟨rfl, rfl, rfl, by decide, by decide⟩

/-- Base and engine insert helpers agree on failure behaviour and on the
rows written overall: the base skips the driver call on an empty frame
where `to_sql` still issues one, but the flattened pass content is the
same. -/
theorem insert_values_join_eq (h : Handler) (hro : h.read_only = false)
    (df : DataFrame) :
    (alchemyInsertValues h df).raised = (insert_values h df).raised ∧
    (alchemyInsertValues h df).passes.join =
      (insert_values h df).passes.join := by
  unfold alchemyInsertValues insert_values
  by_cases hdf : df.rows = [] <;>
    simp [allow_method, hro, hdf, Trace.pure0, List.length_pos]

/-- C6 amended: the alternate handler shares only `bulk_insert`'s
contract with the base handler — same read-only guard, same null-policy
branching, same exceptions, and the same rows written overall, with the
insert pass delegated to the engine's `to_sql` — while its `query`,
`execute` and `iter_execute` overrides are stubs that run no SQL and
return None. -/
theorem alchemy_bulk_only_contract (h : Handler) (df : DataFrame)
    (rn : Bool) (hn : Option String) :
    alchemyQuery h = ⟨none, [], h⟩ ∧
    alchemyExecute h = Trace.pure0 ∧
    alchemyIterExecute h = Trace.pure0 ∧
    (alchemyBulkInsert h df rn hn).raised = (bulk_insert h df rn hn).raised ∧
    (alchemyBulkInsert h df rn hn).passes.join =
      (bulk_insert h df rn hn).passes.join ∧
    (h.read_only = true → alchemyBulkInsert h df rn hn = suppressedTrace) := by
  refine ⟨rfl, rfl, rfl, ?_⟩
  by_cases hro : h.read_only
  · simp [alchemyBulkInsert, bulk_insert, allow_method, hro]
  · have hro' : h.read_only = false := by simpa using hro
    refine ⟨?_, ?_, by simp [hro']⟩ <;>
    · unfold alchemyBulkInsert bulk_insert
      simp only [allow_method, hro', if_false, Bool.false_eq_true]
      rcases hn with _ | hn
      · simp [insert_values_join_eq h hro']
      · by_cases hstar : hn = "*"
        · simp [hstar, insert_values_join_eq h hro']
        · rcases hidx : (if rn then dropna df else df).colIdx hn with _ | i
          · simp [hstar, hidx]
          · have k1 := insert_values_join_eq h hro'
              (separate_nulls (if rn then dropna df else df) i).1
            have k2 := insert_values_join_eq h hro'
              (separate_nulls (if rn then dropna df else df) i).2
            have hr1 : (insert_values h
                (separate_nulls (if rn then dropna df else df) i).1).raised
                = none := by
              unfold insert_values
              by_cases hx :
                  (separate_nulls (if rn then dropna df else df) i).1.rows = [] <;>
                simp [allow_method, hro', hx, Trace.pure0, List.length_pos]
            simp [hstar, hidx, Trace.seq, k1.1, k1.2, k2.1, k2.2, hr1]
            try simp [k1.1, hr1]

/-- C6 amended witness: a read-only handle suppresses the alternate
handler's bulk insert too. -/
theorem alchemy_bulk_only_contract_witness :
    alchemyBulkInsert ⟨"cs", true⟩ ⟨[⟨"a", true⟩], [[Cell.nan]]⟩ false none =
      suppressedTrace :=
  (alchemy_bulk_only_contract ⟨"cs", true⟩ ⟨[⟨"a", true⟩], [[Cell.nan]]⟩
    false none).2.2.2.2.2 rfl

end SQLHandlers
